import Mathlib

/-!
Verification of the WhatsApp web-server session broker (`src/server.js`).

The server keeps an in-memory registry `sessions` mapping a `userId` to a
session record (backend client handle, `ready` flag, `lastQR`, `initializing`
flag, pending idle timer).  HTTP handlers create sessions, report status, and
send text/media messages after waiting for readiness with a 1-second poll
bounded by a 15-second timeout.

The embedding below translates the mutable JavaScript state into explicit
state passing:
- the backend client handle is identified by a numeric id (`clientId`);
- side effects (client construction/destruction, auth-directory deletion,
  backend send calls) are recorded in an explicit trace;
- JavaScript request-body values are modelled by `JVal` so that the truthiness
  semantics of `if (!userId || !number || !message)` is captured;
- real time is discretised to whole seconds for the readiness poll.
-/

namespace WServer

/-- A JavaScript value as it appears in a JSON request body: a string, a
number, or absent/undefined.  Only the cases the handlers distinguish are
modelled. -/
inductive JVal where
  | jstr (s : String)
  | jnum (n : Int)
  | jundef
deriving DecidableEq, Repr

/-- JavaScript truthiness for `JVal`: the empty string, the number 0 and
`undefined` are falsy, everything else is truthy.  This is what the guard
`if (!userId || !number || !message)` tests. -/
def truthy : JVal → Bool
  | JVal.jstr s => !(s == "")
  | JVal.jnum n => !(n == 0)
  | JVal.jundef => false

/-- One session record, as stored in `sessions[userId]` (server.js lines
21-27).  The backend `client` object is represented by its numeric id. -/
structure Session where
  clientId : Nat
  ready : Bool
  lastQR : Option String
  initializing : Bool
  timeoutActive : Bool
deriving DecidableEq, Repr

/-- Observable side effects of the lifecycle code: construction and
destruction of a backend client, and deletion of the on-disk auth-artifact
directory of a userId. -/
inductive Action where
  | clientCreated (cid : Nat)
  | clientDestroyed (cid : Nat)
  | authDeleted (u : String)
deriving DecidableEq, Repr

/-- The `sessions` object: an association list from userId to session.
JavaScript object semantics (at most one binding per key) is an invariant
proved below, not baked into the type. -/
abbrev Registry := List (String × Session)

/-- Lookup `sessions[u]`. -/
def regLookup : Registry → String → Option Session
  | [], _ => none
  | (k, s) :: r, u => if k = u then some s else regLookup r u

/-- `delete sessions[u]`: every binding of `u` is removed. -/
def regRemove : Registry → String → Registry
  | [], _ => []
  | (k, s) :: r, u => if k = u then regRemove r u else (k, s) :: regRemove r u

/-- `sessions[u] = s`: the binding of `u` is replaced by `s`. -/
def regSet (r : Registry) (u : String) (s : Session) : Registry :=
  (u, s) :: regRemove r u

/-- Mutation of the fields of `sessions[u]` in place (e.g.
`sessions[u].ready = true`); a no-op when the key is absent. -/
def regUpdate : Registry → String → (Session → Session) → Registry
  | [], _, _ => []
  | (k, s) :: r, u, f =>
    if k = u then (k, f s) :: regUpdate r u f else (k, s) :: regUpdate r u f

/-- Whole-process state: the registry, the set of userIds whose on-disk
auth-artifact directory exists, a supply of fresh client ids, and the trace
of side effects performed so far. -/
structure SrvState where
  sessions : Registry
  authDisk : List String
  nextId : Nat
  trace : List Action
deriving DecidableEq, Repr

/-- The fresh session record installed by `createClient` (server.js lines
21-27): not ready, no QR yet, initializing, idle timer armed. -/
def newSession (cid : Nat) : Session :=
  { clientId := cid, ready := false, lastQR := none,
    initializing := true, timeoutActive := true }

/-- `createClient(userId)` (server.js lines 15-86): constructs a fresh
backend client and unconditionally assigns `sessions[userId]` to a fresh
record — an existing entry for the same userId is overwritten, not kept. -/
def createClient (u : String) (st : SrvState) : SrvState :=
  { st with
    sessions := regSet st.sessions u (newSession st.nextId),
    nextId := st.nextId + 1,
    trace := st.trace ++ [Action.clientCreated st.nextId] }

/-- The guarded call pattern used at every HTTP call site
(`if (!sessions[userId]) createClient(userId)`, e.g. server.js lines
99-102): create only when no entry exists. -/
def guardedCreate (u : String) (st : SrvState) : SrvState :=
  match regLookup st.sessions u with
  | some _ => st
  | none => createClient u st

/-- The `qr` event handler (server.js lines 35-39): store the QR payload and
mark the session not ready. -/
def onQR (u : String) (q : String) (st : SrvState) : SrvState :=
  let f := fun s => { s with lastQR := some q, ready := false }
  { st with sessions := regUpdate st.sessions u f }

/-- The `ready` event handler (server.js lines 41-51): in one step, set
`ready`, clear `lastQR`, clear `initializing` and cancel the idle timer. -/
def onReady (u : String) (st : SrvState) : SrvState :=
  let f := fun s : Session =>
    { s with ready := true, lastQR := none, initializing := false, timeoutActive := false }
  { st with sessions := regUpdate st.sessions u f }

/-- The `auth_failure` event handler (server.js lines 57-60): mark the
session not ready. -/
def onAuthFailure (u : String) (st : SrvState) : SrvState :=
  let f := fun s => { s with ready := false }
  { st with sessions := regUpdate st.sessions u f }

/-- The `disconnected` event handler (server.js lines 62-83), for the client
`cid` captured by the closure: mark not ready, destroy the client, delete the
on-disk auth directory when present, remove the registry entry, then
immediately `createClient` a brand-new session for the same userId. -/
def onDisconnected (u : String) (cid : Nat) (st : SrvState) : SrvState :=
  let f := fun s => { s with ready := false, initializing := false }
  let st1 := { st with sessions := regUpdate st.sessions u f }
  let st2 := { st1 with trace := st1.trace ++ [Action.clientDestroyed cid] }
  let st3 :=
    if st2.authDisk.contains u then
      let disk := st2.authDisk.filter (fun v => v ≠ u)
      { st2 with authDisk := disk, trace := st2.trace ++ [Action.authDeleted u] }
    else st2
  let st4 := { st3 with sessions := regRemove st3.sessions u }
  createClient u st4

/-- The idle-timer callback armed in `createClient` (server.js lines 28-34),
firing 2 minutes after creation for the client `cid` captured by the closure:
if the entry is still not ready, destroy the client and delete the entry; no
replacement is created.  Reading `sessions[userId].ready` on an absent entry
throws a TypeError, modelled by `Except.error`. -/
def onIdleTimeout (u : String) (cid : Nat) (st : SrvState) :
    Except String SrvState :=
  match regLookup st.sessions u with
  | none => Except.error "TypeError: cannot read properties of undefined"
  | some s =>
    if s.ready then Except.ok st
    else Except.ok { st with
      sessions := regRemove st.sessions u,
      trace := st.trace ++ [Action.clientDestroyed cid] }

/-! ## Process-level event system

The asynchronous events that mutate the registry, folded into a step
function so that reachability invariants (one entry per userId, ready
implies no QR) can be stated over every event interleaving. -/

/-- One asynchronous occurrence that mutates the registry: a guarded create
from some HTTP handler, a backend lifecycle event, or the idle timer of
client `cid` firing. -/
inductive GEvent where
  | create (u : String)
  | qr (u : String) (q : String)
  | ready (u : String)
  | authFailure (u : String)
  | disconnected (u : String) (cid : Nat)
  | idle (u : String) (cid : Nat)
deriving DecidableEq, Repr

/-- Apply one event to the process state.  A `disconnected` or `idle`
callback reading an absent entry throws in JavaScript, leaving the state
unchanged; the step function keeps the pre-state in those cases. -/
def stepG (st : SrvState) : GEvent → SrvState
  | GEvent.create u => guardedCreate u st
  | GEvent.qr u q => onQR u q st
  | GEvent.ready u => onReady u st
  | GEvent.authFailure u => onAuthFailure u st
  | GEvent.disconnected u cid =>
    match regLookup st.sessions u with
    | some _ => onDisconnected u cid st
    | none => st
  | GEvent.idle u cid =>
    match onIdleTimeout u cid st with
    | Except.ok st' => st'
    | Except.error _ => st

/-- Process start: empty registry, no side effects yet; `disk` is whatever
auth-artifact directories survive from previous runs. -/
def initialState (disk : List String) : SrvState :=
  { sessions := [], authDisk := disk, nextId := 0, trace := [] }

/-- The process state after a sequence of events from startup. -/
def runG (disk : List String) (evs : List GEvent) : SrvState :=
  evs.foldl stepG (initialState disk)

/-! ## Readiness gate -/

/-- Outcome of `ensureClientReady`: the promise resolves with a client
handle, or rejects with the timeout error. -/
inductive GateResult where
  | resolved (cid : Nat)
  | timedOut
deriving DecidableEq, Repr

/-- The registry entry for the userId as a function of time, in whole
seconds from the moment the poll loop starts (`none` = no entry). -/
abbrev EntryTimeline := Nat → Option Session

/-- One tick of the poll interval (server.js lines 174-180): re-read the
registry; only when the entry exists and is ready does the promise resolve,
with the client stored in the entry at that moment. -/
def pollTick (env : EntryTimeline) (k : Nat) : Option Nat :=
  match env k with
  | some s => if s.ready then some s.clientId else none
  | none => none

/-- The poll loop of `ensureClientReady` (server.js lines 173-186): the
interval ticks at seconds 1, 2, …; the 15-second timeout was registered
before the interval ever re-arms, so at second 15 the rejection runs first
and clears the interval — the ticks that can resolve are those at seconds
1 through 14. -/
def gatePoll (env : EntryTimeline) : GateResult :=
  match (List.range 14).findSome? (fun k => pollTick env (k + 1)) with
  | some cid => GateResult.resolved cid
  | none => GateResult.timedOut

/-- `ensureClientReady` (server.js lines 152-187) from the point where the
entry has been ensured: `entry0` is `sessions[userId]` at time 0.  When the
handler found no entry it called `createClient`, which installs a not-ready
session, so both the `none` case and the not-ready case fall into the poll
loop; a ready entry resolves immediately with its client. -/
def ensureClientReady (entry0 : Option Session) (env : EntryTimeline) :
    GateResult :=
  match entry0 with
  | some s => if s.ready then GateResult.resolved s.clientId else gatePoll env
  | none => gatePoll env

/-- A session as freshly created, holding client `cid`, before any backend
event: the state in which the poll loop starts on the slow path. -/
def pendingSession (cid : Nat) : Session := newSession cid

/-- Fake-backend timeline: the entry always exists, holds client `cid`, and
flips to ready at second `t` (ready at every second `k ≥ t`). -/
def flipEnv (cid : Nat) (t : Nat) : EntryTimeline :=
  fun k => some { pendingSession cid with ready := decide (t ≤ k) }

/-! ## Send handlers -/

/-- The error message of the readiness-gate rejection (server.js line 184). -/
def timeoutMsg : String := "Timeout: Client not ready after waiting."

/-- HTTP response of a send handler. -/
inductive SendResp where
  | badRequest (msg : String)
  | serverError (msg : String)
  | ok (status : String)
deriving DecidableEq, Repr

/-- One call to the backend `client.sendMessage`: a plain text message, or a
`MessageMedia` attachment (mime, data, filename) with an optional caption. -/
inductive SendCall where
  | text (cid : Nat) (chatId : String) (message : JVal)
  | media (cid : Nat) (chatId : String) (mime : JVal) (data : JVal)
      (filename : String) (caption : Option JVal)
deriving DecidableEq, Repr

/-- `number.replace(/\D/g, '')`: keep only the decimal digits. -/
def stripNonDigits (s : String) : String :=
  String.mk (s.data.filter Char.isDigit)

/-- The JavaScript expression `v || dflt` as used for optional filenames:
the string value of `v` when truthy, otherwise the default. -/
def jsOr (v : JVal) (dflt : String) : String :=
  match v with
  | JVal.jstr s => if s == "" then dflt else s
  | JVal.jnum n => if n == 0 then dflt else toString n
  | JVal.jundef => dflt

/-- The `/send-message` handler (server.js lines 145-214).  In source order:
the required-field check (`if (!userId || !number || !message)` → 400), then
`await ensureClientReady()` (a rejection is caught and sent as 500 with the
error message), and only then the digit normalisation and the
fewer-than-10-digits check (→ 400), the `@c.us` chat id, and the backend
send.  Calling `.replace` on a non-string `number` throws (→ 500).  Returns
the response together with the backend send calls performed. -/
def sendMessage (entry0 : Option Session) (env : EntryTimeline)
    (userId number message : JVal) : SendResp × List SendCall :=
  if truthy userId && truthy number && truthy message then
    match ensureClientReady entry0 env with
    | GateResult.timedOut => (SendResp.serverError timeoutMsg, [])
    | GateResult.resolved cid =>
      match number with
      | JVal.jstr ns =>
        let clean := stripNonDigits ns
        if clean.length < 10 then
          (SendResp.badRequest "Invalid phone number", [])
        else
          let chatId := clean ++ "@c.us"
          (SendResp.ok "Message sent", [SendCall.text cid chatId message])
      | _ => (SendResp.serverError "number.replace is not a function", [])
  else
    (SendResp.badRequest "userId, number, and message are required", [])

/-- The `/send-pdf-url` handler (server.js lines 218-297): required fields,
readiness gate, digit check, then the remote fetch (`fetched = none` models
an axios failure → 500); on success the text message is sent first and the
PDF document second, as two separate backend calls to the same chat id, the
document without a caption. -/
def sendPdfUrl (entry0 : Option Session) (env : EntryTimeline)
    (userId number message pdfUrl : JVal) (fetched : Option String) :
    SendResp × List SendCall :=
  if truthy userId && truthy number && truthy message && truthy pdfUrl then
    match ensureClientReady entry0 env with
    | GateResult.timedOut => (SendResp.serverError timeoutMsg, [])
    | GateResult.resolved cid =>
      match number with
      | JVal.jstr ns =>
        let clean := stripNonDigits ns
        if clean.length < 10 then
          (SendResp.badRequest "Invalid phone number", [])
        else
          match fetched with
          | none => (SendResp.serverError "fetch failed", [])
          | some pdfData =>
            let chatId := clean ++ "@c.us"
            (SendResp.ok "Message and PDF sent from URL",
             [SendCall.text cid chatId message,
              SendCall.media cid chatId (JVal.jstr "application/pdf")
                (JVal.jstr pdfData) "document.pdf" none])
      | _ => (SendResp.serverError "number.replace is not a function", [])
  else
    (SendResp.badRequest "userId, number, message, and pdfUrl are required", [])

/-- The `/send-pdf-base64` handler (server.js lines 298-367): required
fields (`filename` optional), readiness gate, digit check, then a single
backend call sending the PDF attachment with the text as its caption. -/
def sendPdfBase64 (entry0 : Option Session) (env : EntryTimeline)
    (userId number message pdfB64 filename : JVal) :
    SendResp × List SendCall :=
  if truthy userId && truthy number && truthy message && truthy pdfB64 then
    match ensureClientReady entry0 env with
    | GateResult.timedOut => (SendResp.serverError timeoutMsg, [])
    | GateResult.resolved cid =>
      match number with
      | JVal.jstr ns =>
        let clean := stripNonDigits ns
        if clean.length < 10 then
          (SendResp.badRequest "Invalid phone number", [])
        else
          let chatId := clean ++ "@c.us"
          (SendResp.ok "Message and PDF (base64) sent",
           [SendCall.media cid chatId (JVal.jstr "application/pdf") pdfB64
             (jsOr filename "document.pdf") (some message)])
      | _ => (SendResp.serverError "number.replace is not a function", [])
  else
    (SendResp.badRequest "userId, number, message, and pdfBase64 are required", [])

/-- The `/send-image-base64` handler (server.js lines 368-430): required
fields now include `mimeType` (`filename` optional), readiness gate, digit
check, then a single backend call sending the image attachment with the text
as its caption. -/
def sendImageBase64 (entry0 : Option Session) (env : EntryTimeline)
    (userId number message imgB64 filename mimeType : JVal) :
    SendResp × List SendCall :=
  if truthy userId && truthy number && truthy message && truthy imgB64
      && truthy mimeType then
    match ensureClientReady entry0 env with
    | GateResult.timedOut => (SendResp.serverError timeoutMsg, [])
    | GateResult.resolved cid =>
      match number with
      | JVal.jstr ns =>
        let clean := stripNonDigits ns
        if clean.length < 10 then
          (SendResp.badRequest "Invalid phone number", [])
        else
          let chatId := clean ++ "@c.us"
          (SendResp.ok "Image (base64) and message sent",
           [SendCall.media cid chatId mimeType imgB64
             (jsOr filename "image.jpg") (some message)])
      | _ => (SendResp.serverError "number.replace is not a function", [])
  else
    (SendResp.badRequest
      "userId, number, message, imageBase64, and mimeType are required", [])

/-! ## start-session handler -/

/-- Response of the `/start-session` callback. -/
inductive StartResp where
  | ready
  | qr (dataUrl : String)
  | qrError
  | pending
deriving DecidableEq, Repr

/-- The body of the `setTimeout` callback in `/start-session` (server.js
lines 105-120), run 2 seconds after the handler ensured an entry existed:
it reads `sessions[userId]` again WITHOUT re-checking existence, so when the
entry was removed during the delay the access `session.ready` throws a
TypeError (`Except.error`) instead of producing a response.  `render` is the
external `qrcode.toDataURL` collaborator (`none` = rendering error → the
500 `qrError` response). -/
def startSessionAfterDelay (render : String → Option String)
    (entryAtDelay : Option Session) : Except String StartResp :=
  match entryAtDelay with
  | none => Except.error "TypeError: cannot read properties of undefined"
  | some s =>
    if s.ready then Except.ok StartResp.ready
    else
      match s.lastQR with
      | some q =>
        match render q with
        | some url => Except.ok (StartResp.qr url)
        | none => Except.ok StartResp.qrError
      | none => Except.ok StartResp.pending

/-- Whether an `Except` result is a thrown error rather than a response. -/
def isThrow : Except String StartResp → Bool
  | Except.error _ => true
  | Except.ok _ => false

/-- The keys currently bound in the registry. -/
def regKeys (r : Registry) : List String :=
  r.map Prod.fst

/-! ## Concrete fixtures used by witnesses and counterexamples -/

/-- A session that has authenticated: ready, no QR, idle timer cancelled. -/
def readySession (cid : Nat) : Session :=
  { clientId := cid, ready := true, lastQR := none,
    initializing := false, timeoutActive := false }

/-- Timeline in which the registry entry is removed right after the poll
loop starts and never comes back (idle-destroy during the wait). -/
def vanishEnv : EntryTimeline :=
  fun k => if k = 0 then some (pendingSession 1) else none

/-- Timeline in which the entry exists throughout but never becomes ready. -/
def neverReadyEnv : EntryTimeline :=
  fun _ => some (pendingSession 1)

/-- Timeline of a disconnect during the wait: the entry is present when the
poll starts, removed at seconds 1–3, and reappears from second 4 on as the
recreated brand-new session (a fresh client id, not ready). -/
def recreatedEnv : EntryTimeline :=
  fun k => if k = 0 then some (pendingSession 1)
    else if k ≤ 3 then none else some (pendingSession 2)

/-- Timeline in which the entry is ready from the start. -/
def alwaysReadyEnv (cid : Nat) : EntryTimeline :=
  fun _ => some (readySession cid)

/-- A process state holding one ready session for "alice" whose auth
directory exists on disk. -/
def demoReadyState : SrvState :=
  { sessions := [("alice", readySession 1)], authDisk := ["alice"],
    nextId := 2, trace := [] }

/-- A process state holding one never-authenticated session for "bob". -/
def demoPendingState : SrvState :=
  { sessions := [("bob", pendingSession 1)], authDisk := [],
    nextId := 2, trace := [] }

/-- Every ready session in the registry has no stored QR. -/
def RegReadyNoQR (r : Registry) : Prop :=
  ∀ u s, regLookup r u = some s → s.ready = true → s.lastQR = none

/-- The process invariant: JavaScript-object key uniqueness of the registry,
and `ready → lastQR = none` for every stored session. -/
def Inv (st : SrvState) : Prop :=
  (regKeys st.sessions).Nodup ∧ RegReadyNoQR st.sessions

/-! ## Registry lemmas -/

theorem regLookup_regRemove_self (r : Registry) (u : String) :
    regLookup (regRemove r u) u = none := by
  induction r with
  | nil => rfl
  | cons p r ih =>
    obtain ⟨k, s⟩ := p
    by_cases h : k = u
    · simpa [regRemove, h] using ih
    · simpa [regRemove, regLookup, h] using ih

theorem regLookup_regRemove_ne (r : Registry) (u v : String) (h : v ≠ u) :
    regLookup (regRemove r u) v = regLookup r v := by
  induction r with
  | nil => rfl
  | cons p r ih =>
    obtain ⟨k, s⟩ := p
    have huv : u ≠ v := fun hc => h hc.symm
    by_cases hk : k = u
    · simp [regRemove, regLookup, hk, huv, ih]
    · by_cases hv : k = v
      · simp [regRemove, regLookup, hk, hv, h]
      · simp [regRemove, regLookup, hk, hv, ih]

theorem regLookup_regSet_self (r : Registry) (u : String) (s : Session) :
    regLookup (regSet r u s) u = some s := by
  simp [regSet, regLookup]

theorem regLookup_regSet_ne (r : Registry) (u v : String) (s : Session)
    (h : v ≠ u) : regLookup (regSet r u s) v = regLookup r v := by
  have huv : u ≠ v := fun hc => h hc.symm
  simp only [regSet, regLookup, if_neg huv]
  exact regLookup_regRemove_ne r u v h

theorem regLookup_regUpdate_self (r : Registry) (u : String)
    (f : Session → Session) :
    regLookup (regUpdate r u f) u = Option.map f (regLookup r u) := by
  induction r with
  | nil => rfl
  | cons p r ih =>
    obtain ⟨k, s⟩ := p
    by_cases h : k = u
    · simp [regUpdate, regLookup, h]
    · simp [regUpdate, regLookup, h, ih]

theorem regLookup_regUpdate_ne (r : Registry) (u v : String)
    (f : Session → Session) (h : v ≠ u) :
    regLookup (regUpdate r u f) v = regLookup r v := by
  induction r with
  | nil => rfl
  | cons p r ih =>
    obtain ⟨k, s⟩ := p
    have huv : u ≠ v := fun hc => h hc.symm
    by_cases hk : k = u
    · simp [regUpdate, regLookup, hk, huv, ih]
    · by_cases hv : k = v
      · simp [regUpdate, regLookup, hk, hv, h]
      · simp [regUpdate, regLookup, hk, hv, ih]

theorem regKeys_regUpdate (r : Registry) (u : String) (f : Session → Session) :
    regKeys (regUpdate r u f) = regKeys r := by
  induction r with
  | nil => rfl
  | cons p r ih =>
    obtain ⟨k, s⟩ := p
    by_cases h : k = u
    · simp [regUpdate, regKeys, h] at ih ⊢
      exact ih
    · simp [regUpdate, regKeys, h] at ih ⊢
      exact ih

theorem regKeys_regRemove_sublist (r : Registry) (u : String) :
    List.Sublist (regKeys (regRemove r u)) (regKeys r) := by
  induction r with
  | nil => exact List.Sublist.refl _
  | cons p r ih =>
    obtain ⟨k, s⟩ := p
    by_cases h : k = u
    · simp only [regRemove, h, if_pos rfl, regKeys, List.map_cons]
      exact List.Sublist.cons _ ih
    · simp only [regRemove, h, if_neg h, regKeys, List.map_cons]
      exact List.Sublist.cons₂ _ ih

theorem not_mem_regKeys_regRemove (r : Registry) (u : String) :
    u ∉ regKeys (regRemove r u) := by
  induction r with
  | nil => simp [regRemove, regKeys]
  | cons p r ih =>
    obtain ⟨k, s⟩ := p
    by_cases h : k = u
    · simpa [regRemove, h] using ih
    · simp [regRemove, regKeys, h] at ih ⊢
      exact ⟨fun hc => h hc.symm, ih⟩

theorem nodup_regKeys_regRemove (r : Registry) (u : String)
    (h : (regKeys r).Nodup) : (regKeys (regRemove r u)).Nodup :=
  h.sublist (regKeys_regRemove_sublist r u)

theorem nodup_regKeys_regSet (r : Registry) (u : String) (s : Session)
    (h : (regKeys r).Nodup) : (regKeys (regSet r u s)).Nodup := by
  simp only [regSet, regKeys, List.map_cons]
  exact List.nodup_cons.mpr
    ⟨not_mem_regKeys_regRemove r u, nodup_regKeys_regRemove r u h⟩

/-! ## Reachability invariant -/

theorem regReadyNoQR_regSet (r : Registry) (u : String) (s : Session)
    (hs : s.ready = true → s.lastQR = none) (h : RegReadyNoQR r) :
    RegReadyNoQR (regSet r u s) := by
  intro v s' hl hr
  by_cases hv : v = u
  · subst hv
    rw [regLookup_regSet_self] at hl
    cases hl
    exact hs hr
  · rw [regLookup_regSet_ne r u v s hv] at hl
    exact h v s' hl hr

theorem regReadyNoQR_regRemove (r : Registry) (u : String)
    (h : RegReadyNoQR r) : RegReadyNoQR (regRemove r u) := by
  intro v s' hl hr
  by_cases hv : v = u
  · subst hv
    rw [regLookup_regRemove_self] at hl
    cases hl
  · rw [regLookup_regRemove_ne r u v hv] at hl
    exact h v s' hl hr

theorem regReadyNoQR_regUpdate (r : Registry) (u : String)
    (f : Session → Session)
    (hf : ∀ s, (f s).ready = true → (f s).lastQR = none)
    (h : RegReadyNoQR r) : RegReadyNoQR (regUpdate r u f) := by
  intro v s' hl hr
  by_cases hv : v = u
  · subst hv
    rw [regLookup_regUpdate_self] at hl
    match hla : regLookup r v with
    | none => rw [hla] at hl; cases hl
    | some s0 =>
      rw [hla] at hl
      cases hl
      exact hf s0 hr
  · rw [regLookup_regUpdate_ne r u v f hv] at hl
    exact h v s' hl hr

theorem inv_createClient (u : String) (st : SrvState) (h : Inv st) :
    Inv (createClient u st) := by
  refine ⟨nodup_regKeys_regSet _ u _ h.1, ?_⟩
  exact regReadyNoQR_regSet _ u _ (fun hr => by cases hr) h.2

theorem sessions_onDisconnected (u : String) (cid : Nat) (st : SrvState) :
    (onDisconnected u cid st).sessions =
      regSet (regRemove (regUpdate st.sessions u
        (fun s => { s with ready := false, initializing := false })) u) u
        (newSession st.nextId) := by
  simp only [onDisconnected, createClient]
  split <;> rfl

theorem nextId_onDisconnected (u : String) (cid : Nat) (st : SrvState) :
    (onDisconnected u cid st).nextId = st.nextId + 1 := by
  simp only [onDisconnected, createClient]
  split <;> rfl

theorem inv_stepG (st : SrvState) (e : GEvent) (h : Inv st) :
    Inv (stepG st e) := by
  cases e with
  | create u =>
    cases hl : regLookup st.sessions u with
    | some s => simpa [stepG, guardedCreate, hl] using h
    | none =>
      have := inv_createClient u st h
      simpa [stepG, guardedCreate, hl] using this
  | qr u q =>
    constructor
    · simpa [stepG, onQR, regKeys_regUpdate] using h.1
    · exact regReadyNoQR_regUpdate _ u _ (fun s hr => by simp at hr) h.2
  | ready u =>
    constructor
    · simpa [stepG, onReady, regKeys_regUpdate] using h.1
    · exact regReadyNoQR_regUpdate _ u _ (fun s _ => rfl) h.2
  | authFailure u =>
    constructor
    · simpa [stepG, onAuthFailure, regKeys_regUpdate] using h.1
    · exact regReadyNoQR_regUpdate _ u _ (fun s hr => by simp at hr) h.2
  | disconnected u cid =>
    cases hl : regLookup st.sessions u with
    | none => simpa [stepG, hl] using h
    | some s =>
      have hg : stepG st (GEvent.disconnected u cid) = onDisconnected u cid st := by
        simp [stepG, hl]
      rw [hg, Inv, sessions_onDisconnected]
      constructor
      · apply nodup_regKeys_regSet
        apply nodup_regKeys_regRemove
        rw [regKeys_regUpdate]
        exact h.1
      · apply regReadyNoQR_regSet _ u _ (fun hr => by cases hr)
        apply regReadyNoQR_regRemove
        exact regReadyNoQR_regUpdate _ u _ (fun s hr => by simp at hr) h.2
  | idle u cid =>
    cases hl : regLookup st.sessions u with
    | none => simpa [stepG, onIdleTimeout, hl] using h
    | some s =>
      by_cases hr : s.ready = true
      · simpa [stepG, onIdleTimeout, hl, hr] using h
      · have hg : stepG st (GEvent.idle u cid) = { sessions := regRemove st.sessions u, authDisk := st.authDisk, nextId := st.nextId, trace := st.trace ++ [Action.clientDestroyed cid] } := by
          simp [stepG, onIdleTimeout, hl, hr]
        rw [hg, Inv]
        exact ⟨nodup_regKeys_regRemove _ u h.1,
               regReadyNoQR_regRemove _ u h.2⟩

theorem inv_foldl (evs : List GEvent) :
    ∀ st : SrvState, Inv st → Inv (evs.foldl stepG st) := by
  induction evs with
  | nil => intro st h; exact h
  | cons e evs ih => intro st h; exact ih (stepG st e) (inv_stepG st e h)

theorem inv_runG (disk : List String) (evs : List GEvent) :
    Inv (runG disk evs) := by
  apply inv_foldl
  exact ⟨List.nodup_nil, fun u s hl => by cases hl⟩

/-! ## Readiness-gate lemmas -/

theorem gatePoll_timedOut (env : EntryTimeline)
    (h : ∀ k, 1 ≤ k → k ≤ 14 → pollTick env k = none) :
    gatePoll env = GateResult.timedOut := by
  unfold gatePoll
  have hn : (List.range 14).findSome? (fun k => pollTick env (k + 1)) = none := by
    apply List.findSome?_eq_none_iff.mpr
    intro k hk
    rw [List.mem_range] at hk
    exact h (k + 1) (Nat.succ_le_succ (Nat.zero_le k)) hk
  rw [hn]

theorem pollTick_flipEnv (cid t k : Nat) :
    pollTick (flipEnv cid t) k = if t ≤ k then some cid else none := by
  by_cases h : t ≤ k <;>
    simp [pollTick, flipEnv, pendingSession, newSession, h]

/-- Claim C4: `ensureClientReady` against a non-ready session polls the
registry once a second and resolves with the current client handle when the
session becomes ready before the 15-second timeout fires (flip times 1–14 in
whole seconds), and rejects with the Timeout error when the session first
becomes ready at or after second 15 (in particular never): flipping ready at
t=5 yields the resolved client, flipping at t=20 yields Timeout. -/
theorem sendGate_flip_behaviour (cid t : Nat) (h1 : 1 ≤ t) :
    (t ≤ 14 →
      ensureClientReady (some (pendingSession cid)) (flipEnv cid t) =
        GateResult.resolved cid)
  ∧ (15 ≤ t →
      ensureClientReady (some (pendingSession cid)) (flipEnv cid t) =
        GateResult.timedOut) := by
  constructor
  · intro h2
    show (if (pendingSession cid).ready then GateResult.resolved (pendingSession cid).clientId else gatePoll (flipEnv cid t)) = GateResult.resolved cid
    rw [if_neg (by simp [pendingSession, newSession])]
    interval_cases t <;> rfl
  · intro h2
    show (if (pendingSession cid).ready then GateResult.resolved (pendingSession cid).clientId else gatePoll (flipEnv cid t)) = GateResult.timedOut
    rw [if_neg (by simp [pendingSession, newSession])]
    apply gatePoll_timedOut
    intro k hk1 hk2
    rw [pollTick_flipEnv, if_neg (by omega)]

/-- Witness for C4 at the claim's own example times: ready flipped at t=5
resolves, ready flipped at t=20 times out. -/
theorem sendGate_flip_behaviour_witness :
    ensureClientReady (some (pendingSession 7)) (flipEnv 7 5) =
      GateResult.resolved 7
  ∧ ensureClientReady (some (pendingSession 7)) (flipEnv 7 20) =
      GateResult.timedOut :=
  ⟨(sendGate_flip_behaviour 7 5 (by decide)).1 (by decide),
   (sendGate_flip_behaviour 7 20 (by decide)).2 (by decide)⟩

/-- Claim C2, counterexample: the poll guard
`sessions[userId] && sessions[userId].ready` merely skips ticks whose entry
is absent, and the code defines no SessionVanished error at all (the
`GateResult` type of the source has only resolution and the generic
timeout); with the entry removed right after the wait starts, the wait runs
the full poll window and rejects with the generic Timeout. -/
theorem gate_vanish_cex :
    ensureClientReady (some (pendingSession 1)) vanishEnv =
      GateResult.timedOut := by
  rfl

/-- Claim C2 (amended): if the registry entry is removed while the wait is
outstanding and never reappears ready — it may stay absent or reappear in a
not-ready state, as the concurrent disconnect-then-recreate path produces —
the wait keeps polling and fails with the generic 15-second Timeout error;
no SessionVanished (or any other early) failure exists. -/
theorem gate_vanish_generic_timeout (env : EntryTimeline) (s0 : Session)
    (h0 : s0.ready = false)
    (h : ∀ k s, 1 ≤ k → k ≤ 14 → env k = some s → s.ready = false) :
    ensureClientReady (some s0) env = GateResult.timedOut := by
  show (if s0.ready then GateResult.resolved s0.clientId else gatePoll env) = GateResult.timedOut
  rw [h0]
  simp only [Bool.false_eq_true, if_false]
  apply gatePoll_timedOut
  intro k hk1 hk2
  unfold pollTick
  cases he : env k with
  | none => rfl
  | some s => simp [h k s hk1 hk2 he]

/-- Witness for the amended C2 on the disconnect-recreate timeline: the
entry vanishes at second 1 and reappears not ready from second 4, and the
wait still ends in the generic timeout. -/
theorem gate_vanish_generic_timeout_witness :
    ensureClientReady (some (pendingSession 1)) recreatedEnv =
      GateResult.timedOut :=
  gate_vanish_generic_timeout recreatedEnv (pendingSession 1) rfl
    (fun k s _ _ hs => by
      simp only [recreatedEnv] at hs
      split at hs
      · cases hs
        rfl
      · split at hs
        · cases hs
        · cases hs
          rfl)

/-! ## send-message claims -/

/-- Claim C1, counterexample: a send-message request whose `number` has only
5 digits, against a session that exists but never becomes ready, is answered
with the 500 Timeout error of the readiness gate, not with the 400 Invalid
phone number response — the handler awaits `ensureClientReady` before it
ever looks at the number. -/
theorem sendMessage_short_number_never_ready_cex :
    sendMessage (some (pendingSession 1)) neverReadyEnv (JVal.jstr "u")
        (JVal.jstr "12345") (JVal.jstr "hi") =
      (SendResp.serverError timeoutMsg, [])
    ∧ (sendMessage (some (pendingSession 1)) neverReadyEnv (JVal.jstr "u")
        (JVal.jstr "12345") (JVal.jstr "hi")).1 ≠
      SendResp.badRequest "Invalid phone number" := by
  constructor
  · rfl
  · decide

/-- Claim C1 (amended): the Invalid-phone-number ValidationError is issued
only after the readiness gate resolves — whenever `ensureClientReady`
returns a client (session ready now or within the wait window), a `number`
with fewer than 10 digits after stripping non-digits yields the 400
Invalid phone number response and no backend send; when the session never
becomes ready the same request instead fails with the 500 Timeout error. -/
theorem sendMessage_short_number_after_gate (entry0 : Option Session)
    (env : EntryTimeline) (uid msg : JVal) (ns : String) (cid : Nat)
    (huid : truthy uid = true) (hmsg : truthy msg = true)
    (hns : truthy (JVal.jstr ns) = true)
    (hgate : ensureClientReady entry0 env = GateResult.resolved cid)
    (hshort : (stripNonDigits ns).length < 10) :
    sendMessage entry0 env uid (JVal.jstr ns) msg =
      (SendResp.badRequest "Invalid phone number", []) := by
  simp [sendMessage, huid, hmsg, hns, hgate, hshort]

/-- Witness for the amended C1: an already-ready session plus a 5-digit
number produce the 400 Invalid phone number response. -/
theorem sendMessage_short_number_after_gate_witness :
    sendMessage (some (readySession 3)) neverReadyEnv (JVal.jstr "u")
        (JVal.jstr "12345") (JVal.jstr "hi") =
      (SendResp.badRequest "Invalid phone number", []) :=
  sendMessage_short_number_after_gate (some (readySession 3)) neverReadyEnv
    (JVal.jstr "u") (JVal.jstr "hi") "12345" 3 rfl rfl rfl rfl (by decide)

/-- Claim C10: the required-field guard tests JavaScript truthiness, so a
request whose `message` is the empty string or whose `number` is the number
0 — fields present but falsy — is rejected with the 400 required-fields
error and no backend send is attempted. -/
theorem sendMessage_falsy_required (entry0 : Option Session)
    (env : EntryTimeline) (uid number message : JVal)
    (h : message = JVal.jstr "" ∨ number = JVal.jnum 0) :
    sendMessage entry0 env uid number message =
      (SendResp.badRequest "userId, number, and message are required", []) := by
  rcases h with h | h <;> subst h <;> simp [sendMessage, truthy]

/-- Witness for C10: `number = 0` with every field present is rejected with
the required-fields error. -/
theorem sendMessage_falsy_required_witness :
    sendMessage none neverReadyEnv (JVal.jstr "u") (JVal.jnum 0)
        (JVal.jstr "hello") =
      (SendResp.badRequest "userId, number, and message are required", []) :=
  sendMessage_falsy_required none neverReadyEnv (JVal.jstr "u")
    (JVal.jnum 0) (JVal.jstr "hello") (Or.inr rfl)

/-! ## Lifecycle claims -/

theorem trace_onDisconnected (u : String) (cid : Nat) (st : SrvState) :
    (onDisconnected u cid st).trace =
      st.trace ++ [Action.clientDestroyed cid]
        ++ (if st.authDisk.contains u then [Action.authDeleted u] else [])
        ++ [Action.clientCreated st.nextId] := by
  simp only [onDisconnected, createClient]
  split <;> simp

theorem authDisk_onDisconnected (u : String) (cid : Nat) (st : SrvState) :
    (onDisconnected u cid st).authDisk.contains u = false := by
  simp only [onDisconnected, createClient]
  split
  · simp
  · rename_i hc
    simpa using hc

/-- Claim C3: when the backend disconnected event fires for the session of
`u` (closure client `s.clientId`), the observable effects happen in source
order — the client handle is destroyed, then the on-disk auth directory is
deleted when present, then a brand-new client is created — and afterwards
the auth directory for `u` is gone and the registry holds a freshly created
session for `u` (the next client id) that is not ready and has no QR, so a
later status check produces a fresh QR rather than an error. -/
theorem disconnected_teardown_recreate (st : SrvState) (u : String)
    (s : Session) (h : regLookup st.sessions u = some s) :
    (onDisconnected u s.clientId st).trace =
        st.trace ++ [Action.clientDestroyed s.clientId]
          ++ (if st.authDisk.contains u then [Action.authDeleted u] else [])
          ++ [Action.clientCreated st.nextId]
    ∧ (onDisconnected u s.clientId st).authDisk.contains u = false
    ∧ regLookup (onDisconnected u s.clientId st).sessions u =
        some (newSession st.nextId)
    ∧ (newSession st.nextId).ready = false
    ∧ (newSession st.nextId).lastQR = none :=
  ⟨trace_onDisconnected u s.clientId st,
   authDisk_onDisconnected u s.clientId st,
   by rw [sessions_onDisconnected]; exact regLookup_regSet_self _ _ _,
   rfl, rfl⟩

/-- Witness for C3 on a concrete ready session with on-disk artifacts. -/
theorem disconnected_teardown_recreate_witness :
    (onDisconnected "alice" 1 demoReadyState).trace =
        [Action.clientDestroyed 1, Action.authDeleted "alice",
         Action.clientCreated 2]
    ∧ (onDisconnected "alice" 1 demoReadyState).authDisk.contains "alice" =
        false
    ∧ regLookup (onDisconnected "alice" 1 demoReadyState).sessions "alice" =
        some (newSession 2)
    ∧ (newSession 2).ready = false
    ∧ (newSession 2).lastQR = none := by
  have h := disconnected_teardown_recreate demoReadyState "alice"
    (readySession 1) rfl
  simpa [demoReadyState, readySession] using h

/-- Claim C6: when the 2-minute idle timer fires for a session that never
became ready, the client handle is destroyed and the registry entry is
removed, and nothing else happens — the state records no auth deletion, no
id consumption and no replacement client, unlike the disconnect path. -/
theorem idle_timeout_destroy_no_recreate (st : SrvState) (u : String)
    (s : Session) (h : regLookup st.sessions u = some s)
    (hr : s.ready = false) :
    onIdleTimeout u s.clientId st = Except.ok { sessions := regRemove st.sessions u, authDisk := st.authDisk, nextId := st.nextId, trace := st.trace ++ [Action.clientDestroyed s.clientId] }
    ∧ regLookup (regRemove st.sessions u) u = none := by
  constructor
  · simp [onIdleTimeout, h, hr]
  · exact regLookup_regRemove_self st.sessions u

/-- Witness for C6 on a concrete never-ready session. -/
theorem idle_timeout_destroy_no_recreate_witness :
    onIdleTimeout "bob" 1 demoPendingState = Except.ok { sessions := [], authDisk := [], nextId := 2, trace := [Action.clientDestroyed 1] }
    ∧ regLookup (regRemove demoPendingState.sessions "bob") "bob" = none := by
  have h := idle_timeout_destroy_no_recreate demoPendingState "bob"
    (pendingSession 1) rfl rfl
  simpa [demoPendingState, pendingSession, newSession, regRemove] using h

/-- Claim C7: in every state reachable by any interleaving of creates,
QR/ready/auth-failure/disconnected events and idle timers from process
start, a registry session that is ready has `lastQR = none` — the ready
transition clears the QR in the same step and no other transition can leave
a ready session with a QR. -/
theorem ready_session_has_no_qr (disk : List String) (evs : List GEvent)
    (u : String) (s : Session)
    (h : regLookup (runG disk evs).sessions u = some s)
    (hr : s.ready = true) : s.lastQR = none :=
  (inv_runG disk evs).2 u s h hr

/-- Witness for C7: after create, QR and ready events the stored session is
ready and its QR is cleared. -/
theorem ready_session_has_no_qr_witness :
    (readySession 0).lastQR = none :=
  ready_session_has_no_qr []
    [GEvent.create "u", GEvent.qr "u" "QR1", GEvent.ready "u"] "u"
    (readySession 0) (by decide) rfl

/-! ## Registry uniqueness / idempotency claims -/

/-- Claim C5, counterexample: `createClient` on a userId that already has a
registry entry is not a no-op — it replaces the existing ready session with
a brand-new not-ready one and spawns a second backend client (a fresh
client-created side effect). -/
theorem createClient_not_idempotent_cex :
    regLookup (createClient "alice" demoReadyState).sessions "alice" =
        some (newSession 2)
    ∧ regLookup demoReadyState.sessions "alice" = some (readySession 1)
    ∧ newSession 2 ≠ readySession 1
    ∧ (createClient "alice" demoReadyState).trace =
        [Action.clientCreated 2] := by
  refine ⟨by decide, by decide, by decide, by decide⟩

/-- Claim C5 (amended): at every reachable state the registry holds at most
one session per userId (duplicate-free keys), and creation is idempotent at
the call sites: every handler guards `createClient` behind an existence
check, and this guarded create leaves the state completely unchanged — no
registry write and no second backend client — when an entry already exists;
unguarded `createClient` itself would replace the entry. -/
theorem registry_unique_guarded_create (disk : List String)
    (evs : List GEvent) (st : SrvState) (u : String)
    (h : (regLookup st.sessions u).isSome = true) :
    (regKeys (runG disk evs).sessions).Nodup ∧ guardedCreate u st = st := by
  constructor
  · exact (inv_runG disk evs).1
  · cases hl : regLookup st.sessions u with
    | some s => simp [guardedCreate, hl]
    | none => rw [hl] at h; simp at h

/-- Witness for the amended C5 on a concrete state with an existing entry. -/
theorem registry_unique_guarded_create_witness :
    (regKeys (runG [] []).sessions).Nodup
    ∧ guardedCreate "alice" demoReadyState = demoReadyState :=
  registry_unique_guarded_create [] [] demoReadyState "alice" rfl

/-! ## Media-handler call-shape claim -/

/-- Claim C8: on the success path, `send-pdf-url` performs exactly two
sequential backend sends to the same destination — the text message first,
then the PDF document (no caption) — while `send-pdf-base64` and
`send-image-base64` each perform exactly one send carrying the attachment
with the caption equal to `message`. -/
theorem media_handlers_call_shape
    (entry0 : Option Session) (env : EntryTimeline)
    (uid msg pdfUrl pdfB64 imgB64 mimeT fname : JVal) (ns : String)
    (cid : Nat) (fetched : String)
    (huid : truthy uid = true) (hmsg : truthy msg = true)
    (hurl : truthy pdfUrl = true) (hpdf : truthy pdfB64 = true)
    (himg : truthy imgB64 = true) (hmime : truthy mimeT = true)
    (hns : truthy (JVal.jstr ns) = true)
    (hgate : ensureClientReady entry0 env = GateResult.resolved cid)
    (hlen : ¬(stripNonDigits ns).length < 10) :
    sendPdfUrl entry0 env uid (JVal.jstr ns) msg pdfUrl (some fetched) =
      (SendResp.ok "Message and PDF sent from URL",
       [SendCall.text cid (stripNonDigits ns ++ "@c.us") msg,
        SendCall.media cid (stripNonDigits ns ++ "@c.us")
          (JVal.jstr "application/pdf") (JVal.jstr fetched)
          "document.pdf" none])
  ∧ sendPdfBase64 entry0 env uid (JVal.jstr ns) msg pdfB64 fname =
      (SendResp.ok "Message and PDF (base64) sent",
       [SendCall.media cid (stripNonDigits ns ++ "@c.us")
          (JVal.jstr "application/pdf") pdfB64 (jsOr fname "document.pdf")
          (some msg)])
  ∧ sendImageBase64 entry0 env uid (JVal.jstr ns) msg imgB64 fname mimeT =
      (SendResp.ok "Image (base64) and message sent",
       [SendCall.media cid (stripNonDigits ns ++ "@c.us") mimeT imgB64
          (jsOr fname "image.jpg") (some msg)]) := by
  refine ⟨?_, ?_, ?_⟩ <;>
    simp [sendPdfUrl, sendPdfBase64, sendImageBase64, huid, hmsg, hurl,
      hpdf, himg, hmime, hns, hgate, hlen]

/-- Witness for C8 on concrete inputs (ready session, 10-digit number,
absent optional filenames). -/
theorem media_handlers_call_shape_witness :
    sendPdfUrl (some (readySession 3)) neverReadyEnv (JVal.jstr "u")
        (JVal.jstr "1234567890") (JVal.jstr "hi")
        (JVal.jstr "http://x/doc.pdf") (some "PDFDATA") =
      (SendResp.ok "Message and PDF sent from URL",
       [SendCall.text 3 "1234567890@c.us" (JVal.jstr "hi"),
        SendCall.media 3 "1234567890@c.us" (JVal.jstr "application/pdf")
          (JVal.jstr "PDFDATA") "document.pdf" none])
  ∧ sendPdfBase64 (some (readySession 3)) neverReadyEnv (JVal.jstr "u")
        (JVal.jstr "1234567890") (JVal.jstr "hi") (JVal.jstr "PB64")
        JVal.jundef =
      (SendResp.ok "Message and PDF (base64) sent",
       [SendCall.media 3 "1234567890@c.us" (JVal.jstr "application/pdf")
          (JVal.jstr "PB64") "document.pdf" (some (JVal.jstr "hi"))])
  ∧ sendImageBase64 (some (readySession 3)) neverReadyEnv (JVal.jstr "u")
        (JVal.jstr "1234567890") (JVal.jstr "hi") (JVal.jstr "IB64")
        JVal.jundef (JVal.jstr "image/png") =
      (SendResp.ok "Image (base64) and message sent",
       [SendCall.media 3 "1234567890@c.us" (JVal.jstr "image/png")
          (JVal.jstr "IB64") "image.jpg" (some (JVal.jstr "hi"))]) :=
  media_handlers_call_shape (some (readySession 3)) neverReadyEnv
    (JVal.jstr "u") (JVal.jstr "hi") (JVal.jstr "http://x/doc.pdf")
    (JVal.jstr "PB64") (JVal.jstr "IB64") (JVal.jstr "image/png")
    JVal.jundef "1234567890" 3 "PDFDATA" rfl rfl rfl rfl rfl rfl rfl rfl
    (by decide)

/-! ## start-session delayed dereference claim -/

/-- Claim C9: the start-session callback that runs after the 2-second grace
delay dereferences `sessions[userId]` without re-checking existence — when
the entry was removed during the delay it throws a TypeError instead of
returning a response, and only then; whenever the entry still exists it
returns one of the specified status responses. -/
theorem startSession_delay_unchecked_deref :
    (∀ render : String → Option String,
      isThrow (startSessionAfterDelay render none) = true)
  ∧ ∀ (render : String → Option String) (s : Session),
      isThrow (startSessionAfterDelay render (some s)) = false := by
  constructor
  · intro render
    rfl
  · intro render s
    by_cases hr : s.ready = true
    · simp [startSessionAfterDelay, hr, isThrow]
    · cases hq : s.lastQR with
      | none => simp [startSessionAfterDelay, hr, hq, isThrow]
      | some q =>
        cases hrd : render q with
        | none => simp [startSessionAfterDelay, hr, hq, hrd, isThrow]
        | some url => simp [startSessionAfterDelay, hr, hq, hrd, isThrow]

end WServer
